import Mathlib

/-!
Shallow embedding of `src/app.py` (a Streamlit plant-nursery tracker backed by
SQLite and Google Drive).  The persistence layer is modelled as pure Lean
functions over explicit state:

* SQLite rows are lists of `SqlValue`; the one-time schema migration
  (`migrate_database`, lines 96-168) and the startup initialisation
  (`init_database`, lines 34-94) act on a `MigDB` state holding the
  `projects` table, the quarantine table `projects_old`, and flags for the
  `photos`/`comments` tables.
* The CRUD layer (lines 232-360) acts on a `Store` of typed records; the
  Streamlit click handlers that orchestrate Drive calls and DB writes
  (`show_home_page`, `show_project_page`) are modelled as the `*_click`
  functions, with the outcome of each Google Drive call injected as a
  parameter (the Drive API is an external collaborator).
* Failures inside the migration are injected through `failAt`, the index of
  the first SQL statement that raises (0 = the initial SELECT, 1 = the table
  rename, 2 = the new-table CREATE, 3+i = the INSERT of row i, 3+n = the DROP
  of the quarantine table).  The rollback semantics follow Python's sqlite3
  module in its default (deferred, legacy) transaction mode: a DDL statement
  executed with no transaction open runs in autocommit mode and is committed
  immediately; the first INSERT implicitly opens a transaction which the
  following statements join, so `conn.rollback()` in the `except` branch of
  `migrate_database` restores the state reached after the last autocommitted
  DDL statement.
-/

/-- A value stored in a SQLite column. -/
inductive SqlValue where
  | null
  | int (n : Int)
  | text (s : String)
deriving Repr, DecidableEq

/-- Column names of the old `projects` layout (comment at lines 130-132). -/
def oldSchemaCols : List String :=
  ["id", "name", "overall_status", "overall_health", "root_growth", "pest_presence",
   "disease_presence", "water_level", "soil_quality", "greenhouse_location",
   "next_steps", "retail_availability", "last_updated"]

/-- Column names of the current `projects` layout (CREATE TABLE, lines 107-126). -/
def newSchemaCols : List String :=
  ["id", "name", "overall_status", "house", "plant_shape", "water_status",
   "pest_presence", "disease_presence", "quantity", "root_structure",
   "nutrient_status", "pest_type", "disease_type", "action_required",
   "priority", "retail_ready", "retail_timeline", "header_image_id",
   "last_updated"]

/-- `old_proj[i] if len(old_proj) > i else dflt` (the guarded accesses in the
migration loop, lines 138-153). -/
def oldField (old : List SqlValue) (i : Nat) (dflt : SqlValue) : SqlValue :=
  if i < old.length then old.getD i SqlValue.null else dflt

/-- The per-row transformation of the migration loop (lines 134-154): builds the
19-column `new_proj` tuple from an old-layout row.  The accesses to
`old_proj[0..2]` are unguarded in the source (a row of a SQL table always has
its leading columns); here they default to `null` on an impossible short row.
`today` stands for `datetime.now().strftime` of the current date, used only
when the old row lacks a `last_updated` column. -/
def migrate_row (today : String) (old : List SqlValue) : List SqlValue :=
  [ old.getD 0 SqlValue.null,                       -- id
    old.getD 1 SqlValue.null,                       -- name
    old.getD 2 SqlValue.null,                       -- overall_status
    oldField old 9 (SqlValue.text "TBD"),           -- house (from greenhouse_location)
    SqlValue.text "TBD",                            -- plant_shape
    oldField old 7 (SqlValue.text "TBD"),           -- water_status (from water_level)
    oldField old 5 (SqlValue.text "None"),          -- pest_presence
    oldField old 6 (SqlValue.text "None"),          -- disease_presence
    SqlValue.text "TBD",                            -- quantity
    oldField old 4 (SqlValue.text "TBD"),           -- root_structure (from root_growth)
    oldField old 8 (SqlValue.text "TBD"),           -- nutrient_status (from soil_quality)
    SqlValue.text "",                               -- pest_type
    SqlValue.text "",                               -- disease_type
    oldField old 10 (SqlValue.text "TBD"),          -- action_required (from next_steps)
    SqlValue.text "Medium",                         -- priority
    oldField old 11 (SqlValue.text "Not yet available"),  -- retail_ready
    SqlValue.text "TBD",                            -- retail_timeline
    SqlValue.null,                                  -- header_image_id
    oldField old 12 (SqlValue.text today) ]         -- last_updated

/-- State of the SQLite file as seen by `init_database`/`migrate_database`:
the `projects` table (column names and rows), the quarantine table
`projects_old`, and existence flags for the `photos` and `comments` tables. -/
structure MigDB where
  projects : Option (List String × List (List SqlValue))
  projectsOld : Option (List String × List (List SqlValue))
  photosTable : Bool
  commentsTable : Bool
deriving Repr, DecidableEq

/-- `migrate_database(conn, c)` (lines 96-168) with an injected failure point
`failAt` (see the header comment for the statement numbering and for the
autocommit semantics of the two DDL statements that precede the first INSERT).
On an exception the function rolls back to the last committed state and
re-raises (`Except.error` carries the state the database file is left in). -/
def migrate_database (today : String) (failAt : Option Nat) (db : MigDB) :
    Except MigDB MigDB :=
  match db.projects with
  | none => Except.error db
  | some (cols, rows) =>
    -- ALTER TABLE projects RENAME TO projects_old fails if the target exists
    if db.projectsOld.isSome then Except.error db
    else
      match failAt with
      | none =>
          Except.ok { db with
            projects := some (newSchemaCols, rows.map (migrate_row today)),
            projectsOld := none }
      | some k =>
          if k ≤ 1 then
            -- the SELECT or the RENAME raises: nothing committed yet
            Except.error db
          else if k = 2 then
            -- the CREATE raises: the RENAME was already autocommitted
            Except.error { db with projects := none, projectsOld := some (cols, rows) }
          else if k ≤ 3 + rows.length then
            -- an INSERT or the DROP raises: rollback undoes the open
            -- transaction, leaving the autocommitted RENAME + CREATE
            Except.error { db with
              projects := some (newSchemaCols, []),
              projectsOld := some (cols, rows) }
          else
            Except.ok { db with
              projects := some (newSchemaCols, rows.map (migrate_row today)),
              projectsOld := none }

/-- `init_database()` (lines 34-94): if the `projects` table exists and lacks
the `house` marker column, run the migration (an exception propagates and the
`photos`/`comments` CREATEs never run); otherwise create the missing tables. -/
def init_database (today : String) (failAt : Option Nat) (db : MigDB) :
    Except MigDB MigDB :=
  match db.projects with
  | some (cols, _) =>
      if "house" ∈ cols then
        Except.ok { db with photosTable := true, commentsTable := true }
      else
        match migrate_database today failAt db with
        | Except.error db2 => Except.error db2
        | Except.ok db2 => Except.ok { db2 with photosTable := true, commentsTable := true }
  | none =>
      Except.ok { db with
        projects := some (newSchemaCols, []),
        photosTable := true, commentsTable := true }

/-- Whether a migration/startup run raised. -/
def migFailed : Except MigDB MigDB → Bool
  | Except.error _ => true
  | Except.ok _ => false

/-- The database state a migration/startup run leaves behind. -/
def migState : Except MigDB MigDB → MigDB
  | Except.error d => d
  | Except.ok d => d

/-- A row of the current `projects` table (columns of the CREATE TABLE at
lines 53-72, unpacked at lines 466-469). -/
structure Project where
  id : String
  name : String
  overall_status : String
  house : String
  plant_shape : String
  water_status : String
  pest_presence : String
  disease_presence : String
  quantity : String
  root_structure : String
  nutrient_status : String
  pest_type : String
  disease_type : String
  action_required : String
  priority : String
  retail_ready : String
  retail_timeline : String
  header_image_id : Option String
  last_updated : String
deriving Repr, DecidableEq

/-- A row of the `photos` table (lines 75-82). -/
structure Photo where
  id : Nat
  project_id : String
  google_drive_id : String
  caption : String
  user_name : String
  date_added : String
deriving Repr, DecidableEq

/-- A row of the `comments` table (lines 85-91). -/
structure Comment where
  id : Nat
  project_id : String
  user_name : String
  comment_text : String
  date_added : String
deriving Repr, DecidableEq

/-- The three tables of `nursery.db` under the current schema.  Lists are kept
in rowid (insertion) order; `photoNextId`/`commentNextId` model the
AUTOINCREMENT counters of the two integer primary keys. -/
structure Store where
  projects : List Project
  photos : List Photo
  photoNextId : Nat
  comments : List Comment
  commentNextId : Nat
deriving Repr, DecidableEq

/-- The freshly created database: empty tables, AUTOINCREMENT counters at 1. -/
def emptyStore : Store :=
  { projects := [], photos := [], photoNextId := 1, comments := [], commentNextId := 1 }

/-- Lexicographic comparison of char lists by code point: the order SQLite's
memcmp comparison of TEXT values induces on (UTF-8 encoded) strings. -/
def charListLe : List Char → List Char → Bool
  | [], _ => true
  | _ :: _, [] => false
  | a :: as, b :: bs =>
    if a.toNat < b.toNat then true
    else if b.toNat < a.toNat then false
    else charListLe as bs

/-- `a ≤ b` in SQLite's TEXT ordering. -/
def strLe (a b : String) : Bool := charListLe a.data b.data

/-- `a < b` in SQLite's TEXT ordering. -/
def strLt (a b : String) : Bool := !(strLe b a)

/-- Insert `x` into a list sorted by `key` descending, in front of the first
element with a strictly smaller key (elements with an equal key stay in front
of `x`). -/
def insertDescBy {α : Type} (key : α → String) (x : α) : List α → List α
  | [] => [x]
  | y :: ys => if strLe (key y) (key x) then x :: y :: ys else y :: insertDescBy key x ys

/-- Stable insertion sort, descending by `key`.  This models SQLite's
`ORDER BY <key> DESC` on these unindexed tables: the rows are scanned in rowid
order and sorted, ties keeping their scan order. -/
def sortDescBy {α : Type} (key : α → String) : List α → List α
  | [] => []
  | x :: xs => insertDescBy key x (sortDescBy key xs)

/-- `get_all_projects()` (lines 232-239): `SELECT * FROM projects ORDER BY
last_updated DESC`. -/
def get_all_projects (s : Store) : List Project :=
  sortDescBy (fun p => p.last_updated) s.projects

/-- `get_project_by_id(project_id)` (lines 241-248). -/
def get_project_by_id (project_id : String) (s : Store) : Option Project :=
  s.projects.find? (fun p => p.id == project_id)

/-- `add_project(project_data)` (lines 250-257): a plain INSERT.  The `id`
PRIMARY KEY constraint never fires in the modelled flows: `show_home_page`
checks existence first and `seed_sample_data` only runs on an empty table. -/
def add_project (p : Project) (s : Store) : Store :=
  { s with projects := s.projects ++ [p] }

/-- The `new_project_data` tuple built by the Create Project button
(lines 387-399); `today` is `datetime.now().strftime` of the current date. -/
def new_project_data (project_id project_name today : String) : Project :=
  { id := project_id
    name := project_name
    overall_status := "Healthy"
    house := "TBD"
    plant_shape := "TBD"
    water_status := "TBD"
    pest_presence := "None"
    disease_presence := "None"
    quantity := "TBD"
    root_structure := "TBD"
    nutrient_status := "TBD"
    pest_type := ""
    disease_type := ""
    action_required := "Initial planting and monitoring"
    priority := "Medium"
    retail_ready := "Not yet available"
    retail_timeline := "TBD"
    header_image_id := none
    last_updated := today }

/-- Possible error signals surfaced to the page (`st.error`/`st.warning`). -/
inductive DBError where
  | notFound
  | duplicateIdentity
  | validationError
  | blobStoreError
  | storageError
deriving Repr, DecidableEq

/-- The Create Project click handler (lines 381-405): empty name or id only
draws a warning; a taken id draws an error; otherwise the defaults row is
inserted.  On a failure the store is returned unchanged. -/
def create_project (today project_id project_name : String) (s : Store) :
    Store × Option DBError :=
  if project_name ≠ "" ∧ project_id ≠ "" then
    match get_project_by_id project_id s with
    | some _ => (s, some DBError.duplicateIdentity)
    | none => (add_project (new_project_data project_id project_name today) s, none)
  else (s, some DBError.validationError)

/-- `get_project_photos(project_id)` (lines 293-300): `SELECT * FROM photos
WHERE project_id = ? ORDER BY date_added DESC`. -/
def get_project_photos (project_id : String) (s : Store) : List Photo :=
  sortDescBy (fun ph => ph.date_added) (s.photos.filter (fun ph => ph.project_id == project_id))

/-- `add_photo(project_id, google_drive_id, caption, user_name)`
(lines 302-310); `today` is the `date_added` stamp `datetime.now().strftime`
of the current date. -/
def add_photo (today project_id google_drive_id caption user_name : String) (s : Store) : Store :=
  { s with
    photos := s.photos ++ [{ id := s.photoNextId, project_id := project_id,
                             google_drive_id := google_drive_id, caption := caption,
                             user_name := user_name, date_added := today }]
    photoNextId := s.photoNextId + 1 }

/-- The Photo record the Upload Photo button inserts (lines 615-624):
`photo_caption or "No caption"` replaces an empty caption. -/
def uploaded_photo (today project_id google_drive_id caption user_name : String) (s : Store) :
    Photo :=
  { id := s.photoNextId, project_id := project_id, google_drive_id := google_drive_id,
    caption := if caption = "" then "No caption" else caption,
    user_name := user_name, date_added := today }

/-- The Upload Photo click handler (lines 615-628): `upload_photo_to_drive`
runs first and its result is injected as `uploadResult` (`None` on a Drive
failure); only on success is the Photo record written. -/
def upload_photo_click (uploadResult : Option String)
    (today project_id caption user_name : String) (s : Store) : Store × Option DBError :=
  match uploadResult with
  | some gdid =>
      (add_photo today project_id gdid (if caption = "" then "No caption" else caption)
        user_name s, none)
  | none => (s, some DBError.blobStoreError)

/-- `get_photo_url_from_drive(file_id)` (lines 227-229). -/
def get_photo_url_from_drive (file_id : String) : String :=
  "https://drive.google.com/thumbnail?id=" ++ file_id ++ "&sz=w1000"

/-- `delete_photo(photo_id)` (lines 312-318): `DELETE FROM photos WHERE id = ?`. -/
def delete_photo (photo_id : Nat) (s : Store) : Store :=
  { s with photos := s.photos.filter (fun ph => ph.id != photo_id) }

/-- The per-photo Delete button (lines 644-650): `delete_photo_from_drive`
runs first (its success injected as `driveDeleteOk`); only on success is the
Photo record deleted, otherwise an error is shown and nothing changes. -/
def delete_photo_click (driveDeleteOk : Bool) (photo_id : Nat) (s : Store) :
    Store × Option DBError :=
  if driveDeleteOk then (delete_photo photo_id s, none)
  else (s, some DBError.blobStoreError)

/-- `get_project_comments(project_id)` (lines 320-327): `SELECT * FROM
comments WHERE project_id = ? ORDER BY date_added DESC`. -/
def get_project_comments (project_id : String) (s : Store) : List Comment :=
  sortDescBy (fun cm => cm.date_added) (s.comments.filter (fun cm => cm.project_id == project_id))

/-- `add_comment(project_id, user_name, comment_text)` (lines 329-337); `now`
is the minute-granularity `date_added` stamp. -/
def add_comment (now project_id user_name comment_text : String) (s : Store) : Store :=
  { s with
    comments := s.comments ++ [{ id := s.commentNextId, project_id := project_id,
                                 user_name := user_name, comment_text := comment_text,
                                 date_added := now }]
    commentNextId := s.commentNextId + 1 }

/-- The Comment record the Post Comment button inserts. -/
def posted_comment (now project_id user_name comment_text : String) (s : Store) : Comment :=
  { id := s.commentNextId, project_id := project_id, user_name := user_name,
    comment_text := comment_text, date_added := now }

/-- The Post Comment click handler (lines 670-676): an empty name or empty
text only draws a warning and no row is inserted. -/
def post_comment_click (now project_id user_name comment_text : String) (s : Store) :
    Store × Option DBError :=
  if user_name ≠ "" ∧ comment_text ≠ "" then
    (add_comment now project_id user_name comment_text s, none)
  else (s, some DBError.validationError)

/-- First sample project of `seed_sample_data` (lines 344-348). -/
def sample_project_1 : Project :=
  { id := "hydrangea-little-lime-2025"
    name := "Hydrangea Little Lime 2025"
    overall_status := "Healthy"
    house := "House 3"
    plant_shape := "Rounded"
    water_status := "Adequate"
    pest_presence := "None"
    disease_presence := "None"
    quantity := "45 units"
    root_structure := "Excellent"
    nutrient_status := "Good"
    pest_type := ""
    disease_type := ""
    action_required := "Monitor for aphids"
    priority := "Medium"
    retail_ready := "Available"
    retail_timeline := "Ready now"
    header_image_id := none
    last_updated := "2025-10-05" }

/-- Second sample project of `seed_sample_data` (lines 349-353). -/
def sample_project_2 : Project :=
  { id := "knockout-roses-spring-2025"
    name := "Knockout Roses Spring 2025"
    overall_status := "Needs Attention"
    house := "House 1"
    plant_shape := "Bushy"
    water_status := "Slightly dry"
    pest_presence := "Little"
    disease_presence := "None"
    quantity := "30 units"
    root_structure := "Moderate"
    nutrient_status := "Fair"
    pest_type := "Aphids"
    disease_type := ""
    action_required := "Apply aphid treatment, increase watering"
    priority := "High"
    retail_ready := "Not yet available"
    retail_timeline := "2-3 weeks"
    header_image_id := none
    last_updated := "2025-10-06" }

/-- `seed_sample_data()` (lines 339-360): if `get_all_projects()` is empty,
insert the two sample projects and the three sample comments (`now` is the
`date_added` stamp the three `add_comment` calls take). -/
def seed_sample_data (now : String) (s : Store) : Store :=
  if (get_all_projects s).length = 0 then
    add_comment now "knockout-roses-spring-2025" "Mike T."
      "Spotted some aphids on lower leaves. Planning treatment for tomorrow."
      (add_comment now "hydrangea-little-lime-2025" "Mike T."
        "Adjusted watering schedule. Monitoring closely."
        (add_comment now "hydrangea-little-lime-2025" "Sarah M."
          "Plants looking great! Color is coming in nicely."
          (add_project sample_project_2 (add_project sample_project_1 s))))
  else s

/-- An observable call made by the Set as Header Image button: a Drive upload,
a Drive delete, or the `header_image_id` column update. -/
inductive HeaderEvent where
  | uploadBlob (key : String)
  | deleteBlob (key : String)
  | setHeader (project_id : String) (key : String)
deriving Repr, DecidableEq

/-- The sequence of calls the Set as Header Image button makes (lines
482-495): upload the new image; if that returned an id and an old header
exists, delete the old blob from Drive; then update the record.  On an upload
failure nothing further happens. -/
def set_header_image_click (uploadResult : Option String)
    (project_id : String) (header_image_id : Option String) : List HeaderEvent :=
  match uploadResult with
  | none => []
  | some k =>
      [HeaderEvent.uploadBlob k] ++
      (match header_image_id with
       | some old => [HeaderEvent.deleteBlob old]
       | none => []) ++
      [HeaderEvent.setHeader project_id k]

/-- Joint state of the Drive folder (keys of stored blobs) and the project
record's `header_image_id` column. -/
structure HeaderState where
  drive : List String
  header : Option String
deriving Repr, DecidableEq

/-- Effect of one call on the Drive folder and the project record. -/
def applyHeaderEvent (st : HeaderState) : HeaderEvent → HeaderState
  | HeaderEvent.uploadBlob k => { st with drive := st.drive ++ [k] }
  | HeaderEvent.deleteBlob k => { st with drive := st.drive.filter (fun x => x != k) }
  | HeaderEvent.setHeader _ k => { st with header := some k }

/-- Run a sequence of calls from a starting state. -/
def runHeaderEvents (st : HeaderState) (es : List HeaderEvent) : HeaderState :=
  es.foldl applyHeaderEvent st

/-- The concrete old-layout row of the spec's migration example. -/
def oldSampleRow : List SqlValue :=
  [SqlValue.text "p1", SqlValue.text "Plant A", SqlValue.text "Healthy", SqlValue.int 80,
   SqlValue.text "Good", SqlValue.text "None", SqlValue.text "None", SqlValue.text "Adequate",
   SqlValue.text "Rich", SqlValue.text "GH-1", SqlValue.text "Water more",
   SqlValue.text "Available", SqlValue.text "2025-01-01"]

/-- A database still on the old layout, holding the sample row. -/
def dbOldLayout : MigDB :=
  { projects := some (oldSchemaCols, [oldSampleRow])
    projectsOld := none
    photosTable := true
    commentsTable := true }

/-- An already-migrated database (the `house` marker column is present). -/
def dbMigrated : MigDB :=
  { projects := some (newSchemaCols, [])
    projectsOld := none
    photosTable := true
    commentsTable := true }

/-- A store holding one project with id `p1`. -/
def storeWithP1 : Store :=
  { emptyStore with projects := [new_project_data "p1" "Plant A" "2025-01-01"] }

/-- A photo dated 2025-10-12 with Drive id `k0`. -/
def photoK0 : Photo :=
  { id := 1, project_id := "p1", google_drive_id := "k0", caption := "c",
    user_name := "u", date_added := "2025-10-12" }

/-- A store holding one photo for project `p1`. -/
def storeOnePhoto : Store :=
  { emptyStore with photos := [photoK0], photoNextId := 2 }

/-! ## Helper lemmas about the SQLite TEXT ordering and the stable sort -/

theorem charListLe_total (a : List Char) : ∀ b, charListLe a b = true ∨ charListLe b a = true := by
  induction a with
  | nil => intro b; left; rfl
  | cons x xs ih =>
    intro b
    cases b with
    | nil => right; rfl
    | cons y ys =>
      by_cases h1 : x.toNat < y.toNat
      · left; simp [charListLe, h1]
      · by_cases h2 : y.toNat < x.toNat
        · right; simp [charListLe, h2]
        · rcases ih ys with h | h
          · left; simp [charListLe, h1, h2, h]
          · right; simp [charListLe, h1, h2, h]

theorem charListLe_trans :
    ∀ (a b c : List Char), charListLe a b = true → charListLe b c = true →
      charListLe a c = true := by
  intro a
  induction a with
  | nil => intro b c _ _; rfl
  | cons x xs ih =>
    intro b c h1 h2
    cases b with
    | nil => simp [charListLe] at h1
    | cons y ys =>
      cases c with
      | nil => simp [charListLe] at h2
      | cons z zs =>
        simp only [charListLe] at h1 h2 ⊢
        by_cases hxy : x.toNat < y.toNat
        · by_cases hyz : y.toNat < z.toNat
          · have hxz : x.toNat < z.toNat := Nat.lt_trans hxy hyz
            simp [hxz]
          · by_cases hzy : z.toNat < y.toNat
            · simp [hyz, hzy] at h2
            · have hxz : x.toNat < z.toNat := by omega
              simp [hxz]
        · by_cases hyx : y.toNat < x.toNat
          · simp [hxy, hyx] at h1
          · by_cases hyz : y.toNat < z.toNat
            · have hxz : x.toNat < z.toNat := by omega
              simp [hxz]
            · by_cases hzy : z.toNat < y.toNat
              · simp [hyz, hzy] at h2
              · have hxz : ¬ x.toNat < z.toNat := by omega
                have hzx : ¬ z.toNat < x.toNat := by omega
                simp [hxy, hyx] at h1
                simp [hyz, hzy] at h2
                simp [hxz, hzx]
                exact ih ys zs h1 h2

theorem strLe_total (a b : String) : strLe a b = true ∨ strLe b a = true :=
  charListLe_total a.data b.data

theorem strLe_trans (a b c : String) (h1 : strLe a b = true) (h2 : strLe b c = true) :
    strLe a c = true :=
  charListLe_trans a.data b.data c.data h1 h2

theorem strLe_of_not_strLe (a b : String) (h : strLe a b = false) : strLe b a = true := by
  rcases strLe_total a b with h1 | h1
  · rw [h] at h1; exact absurd h1 (by decide)
  · exact h1

theorem strLe_eq_false_of_strLt (a b : String) (h : strLt a b = true) : strLe b a = false := by
  simpa [strLt] using h

theorem mem_insertDescBy {α : Type} (key : α → String) (x a : α) (l : List α) :
    a ∈ insertDescBy key x l ↔ a = x ∨ a ∈ l := by
  induction l with
  | nil => simp [insertDescBy]
  | cons y ys ih =>
    simp only [insertDescBy]
    split
    · simp [List.mem_cons]
    · simp [List.mem_cons, ih]
      tauto

theorem mem_sortDescBy {α : Type} (key : α → String) (a : α) (l : List α) :
    a ∈ sortDescBy key l ↔ a ∈ l := by
  induction l with
  | nil => simp [sortDescBy]
  | cons x xs ih => simp [sortDescBy, mem_insertDescBy, ih]

theorem pairwise_insertDescBy {α : Type} (key : α → String) (x : α) (l : List α)
    (h : List.Pairwise (fun a b => strLe (key b) (key a) = true) l) :
    List.Pairwise (fun a b => strLe (key b) (key a) = true) (insertDescBy key x l) := by
  induction l with
  | nil => simp [insertDescBy]
  | cons y ys ih =>
    rcases List.pairwise_cons.mp h with ⟨hy, hys⟩
    simp only [insertDescBy]
    split
    · rename_i hle
      refine List.pairwise_cons.mpr ⟨?_, h⟩
      intro b hb
      rcases List.mem_cons.mp hb with rfl | hb
      · exact hle
      · exact strLe_trans _ _ _ (hy b hb) hle
    · rename_i hgt
      simp only [Bool.not_eq_true] at hgt
      refine List.pairwise_cons.mpr ⟨?_, ih hys⟩
      intro b hb
      rcases (mem_insertDescBy key x b ys).mp hb with rfl | hb
      · exact strLe_of_not_strLe _ _ hgt
      · exact hy b hb

theorem pairwise_sortDescBy {α : Type} (key : α → String) (l : List α) :
    List.Pairwise (fun a b => strLe (key b) (key a) = true) (sortDescBy key l) := by
  induction l with
  | nil => simp [sortDescBy]
  | cons x xs ih => exact pairwise_insertDescBy key x _ ih

theorem length_insertDescBy {α : Type} (key : α → String) (x : α) (l : List α) :
    (insertDescBy key x l).length = l.length + 1 := by
  induction l with
  | nil => rfl
  | cons y ys ih =>
    simp only [insertDescBy]
    split
    · simp
    · simp [ih]

theorem length_sortDescBy {α : Type} (key : α → String) (l : List α) :
    (sortDescBy key l).length = l.length := by
  induction l with
  | nil => rfl
  | cons x xs ih => simp [sortDescBy, length_insertDescBy, ih]

theorem head_sortDescBy_append {α : Type} (key : α → String) (x : α) (l : List α)
    (h : ∀ y ∈ l, strLt (key y) (key x) = true) :
    (sortDescBy key (l ++ [x])).head? = some x := by
  induction l with
  | nil => simp [sortDescBy, insertDescBy]
  | cons y ys ih =>
    have hy := h y (List.mem_cons_self y ys)
    have ih2 := ih (fun z hz => h z (List.mem_cons_of_mem y hz))
    show (insertDescBy key y (sortDescBy key (ys ++ [x]))).head? = some x
    cases hsort : sortDescBy key (ys ++ [x]) with
    | nil => rw [hsort] at ih2; simp at ih2
    | cons a t =>
      rw [hsort] at ih2
      simp only [List.head?_cons, Option.some.injEq] at ih2
      subst ih2
      simp [insertDescBy, strLe_eq_false_of_strLt _ _ hy]

theorem find?_append_of_none {α : Type} (p : α → Bool) (l1 l2 : List α)
    (h : l1.find? p = none) : (l1 ++ l2).find? p = l2.find? p := by
  induction l1 with
  | nil => rfl
  | cons x xs ih =>
    by_cases hx : p x = true
    · simp [List.find?_cons_of_pos _ hx] at h
    · rw [List.find?_cons_of_neg _ hx] at h
      rw [List.cons_append, List.find?_cons_of_neg _ hx]
      exact ih h

/-! ## Claim theorems -/

/-- C1: every old 13-column row is migrated to exactly one new-layout row with
id, name and overall_status preserved, house from greenhouse_location,
water_status from water_level, root_structure from root_growth,
nutrient_status from soil_quality, action_required from next_steps,
retail_ready from retail_availability, last_updated preserved, and the
constants plant_shape='TBD', quantity='TBD', pest_type='', disease_type='',
priority='Medium', retail_timeline='TBD', header_image_key=null; in
particular the concrete sample row maps as the spec states, and a successful
migration maps each stored row through exactly this transformation. -/
theorem migrate_row_maps_old_layout :
    (∀ (today : String) (v0 v1 v2 v3 v4 v5 v6 v7 v8 v9 v10 v11 v12 : SqlValue),
      migrate_row today [v0, v1, v2, v3, v4, v5, v6, v7, v8, v9, v10, v11, v12] =
        [v0, v1, v2, v9, SqlValue.text "TBD", v7, v5, v6, SqlValue.text "TBD", v4, v8,
         SqlValue.text "", SqlValue.text "", v10, SqlValue.text "Medium", v11,
         SqlValue.text "TBD", SqlValue.null, v12]) ∧
    migrate_row "2025-06-01" oldSampleRow =
      [SqlValue.text "p1", SqlValue.text "Plant A", SqlValue.text "Healthy",
       SqlValue.text "GH-1", SqlValue.text "TBD", SqlValue.text "Adequate",
       SqlValue.text "None", SqlValue.text "None", SqlValue.text "TBD",
       SqlValue.text "Good", SqlValue.text "Rich", SqlValue.text "",
       SqlValue.text "", SqlValue.text "Water more", SqlValue.text "Medium",
       SqlValue.text "Available", SqlValue.text "TBD", SqlValue.null,
       SqlValue.text "2025-01-01"] ∧
    (∀ (today : String) (db : MigDB) (cols : List String) (rows : List (List SqlValue))
        (db2 : MigDB),
      db.projects = some (cols, rows) → migrate_database today none db = Except.ok db2 →
      db2.projects = some (newSchemaCols, rows.map (migrate_row today))) := by
  refine ⟨?_, by decide, ?_⟩
  · intro today v0 v1 v2 v3 v4 v5 v6 v7 v8 v9 v10 v11 v12
    rfl
  · intro today db cols rows db2 hp hok
    unfold migrate_database at hok
    rw [hp] at hok
    by_cases ho : db.projectsOld.isSome
    · simp [ho] at hok
    · simp [ho] at hok
      rw [← hok]

/-- Witness for C1: the mapping conjunct applied to the concrete sample
database. -/
theorem migrate_row_maps_old_layout_witness :
    (migState (migrate_database "2025-06-01" none dbOldLayout)).projects =
      some (newSchemaCols, [oldSampleRow].map (migrate_row "2025-06-01")) :=
  migrate_row_maps_old_layout.2.2 "2025-06-01" dbOldLayout oldSchemaCols [oldSampleRow]
    (migState (migrate_database "2025-06-01" none dbOldLayout)) rfl rfl

/-- C2: for a database in the old layout, any failure injected during the
transform steps (1 = rename, 2 = create, 3+i = insert of row i, 3+n = drop)
makes the migration raise; in every failure state the original rows are all
still present (in `projects` or quarantined in `projects_old`), the
quarantined table is only absent when nothing was changed at all, and the new
table is never partially populated; a successful run drops the quarantine
table only with every row re-inserted, and the raised error propagates
through `init_database`, halting startup. -/
theorem migrate_database_failure_rollback (today : String) (db : MigDB)
    (cols : List String) (rows : List (List SqlValue))
    (hp : db.projects = some (cols, rows)) (ho : db.projectsOld = none) :
    (∀ k, 1 ≤ k → k ≤ 3 + rows.length →
      migFailed (migrate_database today (some k) db) = true ∧
      ((migState (migrate_database today (some k) db)).projects = some (cols, rows) ∨
        (migState (migrate_database today (some k) db)).projectsOld = some (cols, rows)) ∧
      ((migState (migrate_database today (some k) db)).projectsOld = none →
        migState (migrate_database today (some k) db) = db) ∧
      (∀ ncols nrows,
        (migState (migrate_database today (some k) db)).projects = some (ncols, nrows) →
        nrows = rows ∨ nrows = [])) ∧
    (∀ failAt db2, migrate_database today failAt db = Except.ok db2 →
      db2.projects = some (newSchemaCols, rows.map (migrate_row today)) ∧
      db2.projectsOld = none) ∧
    (∀ failAt db2, "house" ∉ cols → migrate_database today failAt db = Except.error db2 →
      init_database today failAt db = Except.error db2) := by
  have hoSome : db.projectsOld.isSome = false := by rw [ho]; rfl
  refine ⟨?_, ?_, ?_⟩
  · intro k hk1 hk2
    by_cases hA : k ≤ 1
    · have heq : migrate_database today (some k) db = Except.error db := by
        unfold migrate_database
        rw [hp]
        simp [hoSome, hA]
      rw [heq]
      refine ⟨rfl, Or.inl hp, fun _ => rfl, ?_⟩
      intro ncols nrows hpr
      have hred : migState (Except.error db) = db := rfl
      rw [hred, hp] at hpr
      injection hpr with h
      exact Or.inl (congrArg Prod.snd h).symm
    · by_cases hB : k = 2
      · have heq : migrate_database today (some k) db =
            Except.error { db with projects := none, projectsOld := some (cols, rows) } := by
          unfold migrate_database
          rw [hp]
          simp [hoSome, hA, hB]
        rw [heq]
        refine ⟨rfl, Or.inr rfl, ?_, ?_⟩
        · intro hcontra
          simp [migState] at hcontra
        · intro ncols nrows hpr
          simp [migState] at hpr
      · have hC : k ≤ 3 + rows.length := hk2
        have heq : migrate_database today (some k) db =
            Except.error { db with projects := some (newSchemaCols, []),
                                   projectsOld := some (cols, rows) } := by
          unfold migrate_database
          rw [hp]
          simp [hoSome, hA, hB, hC]
        rw [heq]
        refine ⟨rfl, Or.inr rfl, ?_, ?_⟩
        · intro hcontra
          simp [migState] at hcontra
        · intro ncols nrows hpr
          simp [migState] at hpr
          exact Or.inr hpr.2
  · intro failAt db2 hok
    cases failAt with
    | none =>
      unfold migrate_database at hok
      rw [hp] at hok
      simp [hoSome] at hok
      rw [← hok]
      exact ⟨rfl, rfl⟩
    | some k =>
      unfold migrate_database at hok
      rw [hp] at hok
      simp [hoSome] at hok
      by_cases hA : k ≤ 1
      · simp [hA] at hok
      · by_cases hB : k = 2
        · simp [hA, hB] at hok
        · by_cases hC : k ≤ 3 + rows.length
          · simp [hA, hB, hC] at hok
          · simp [hA, hB, hC] at hok
            rw [← hok]
            exact ⟨rfl, rfl⟩
  · intro failAt db2 hnot herr
    unfold init_database
    rw [hp]
    simp only [hnot, if_false]
    rw [herr]

/-- Witness for C2: a failure injected at the first INSERT (statement 3) of
the sample old-layout database raises, and the row survives in the
quarantine table. -/
theorem migrate_database_failure_rollback_witness :
    migFailed (migrate_database "2025-06-01" (some 3) dbOldLayout) = true ∧
    ((migState (migrate_database "2025-06-01" (some 3) dbOldLayout)).projects =
        some (oldSchemaCols, [oldSampleRow]) ∨
      (migState (migrate_database "2025-06-01" (some 3) dbOldLayout)).projectsOld =
        some (oldSchemaCols, [oldSampleRow])) :=
  ⟨((migrate_database_failure_rollback "2025-06-01" dbOldLayout oldSchemaCols [oldSampleRow]
      rfl rfl).1 3 (by decide) (by decide)).1,
   ((migrate_database_failure_rollback "2025-06-01" dbOldLayout oldSchemaCols [oldSampleRow]
      rfl rfl).1 3 (by decide) (by decide)).2.1⟩

/-- C3: when the `projects` table already carries the `house` marker column,
startup initialisation leaves every Project row (and the whole migration
state) unchanged apart from ensuring the `photos`/`comments` tables exist,
and running it a second time returns the very same state: startup is
idempotent on an already-migrated database. -/
theorem init_database_noop_when_migrated (today today2 : String) (fa fa2 : Option Nat)
    (db : MigDB) (cols : List String) (rows : List (List SqlValue))
    (hp : db.projects = some (cols, rows)) (hm : "house" ∈ cols) :
    init_database today fa db =
      Except.ok { db with photosTable := true, commentsTable := true } ∧
    ({ db with photosTable := true, commentsTable := true } : MigDB).projects = db.projects ∧
    init_database today2 fa2 { db with photosTable := true, commentsTable := true } =
      Except.ok { db with photosTable := true, commentsTable := true } := by
  refine ⟨?_, rfl, ?_⟩
  · unfold init_database
    rw [hp]
    simp [hm]
  · unfold init_database
    have hp2 : ({ db with photosTable := true, commentsTable := true } : MigDB).projects =
        some (cols, rows) := hp
    rw [hp2]
    simp [hm]

/-- Witness for C3: startup on the already-migrated sample database, twice. -/
theorem init_database_noop_when_migrated_witness :
    init_database "2025-06-02" none dbMigrated =
      Except.ok { dbMigrated with photosTable := true, commentsTable := true } ∧
    init_database "2025-06-03" none
        { dbMigrated with photosTable := true, commentsTable := true } =
      Except.ok { dbMigrated with photosTable := true, commentsTable := true } :=
  ⟨(init_database_noop_when_migrated "2025-06-02" "2025-06-03" none none dbMigrated
      newSchemaCols [] rfl (by decide)).1,
   (init_database_noop_when_migrated "2025-06-02" "2025-06-03" none none dbMigrated
      newSchemaCols [] rfl (by decide)).2.2⟩

/-- C4: evaluation of the Set as Header Image flow at a project whose header
is blob `h0`, with the new upload succeeding as `h1`.  The code's call
sequence is upload, then delete of the old blob, then the record update — the
delete of the previous blob happens BEFORE the `header_image_id` update, so
after the first two calls the project record still points at `h0`, which is
already deleted from the Drive folder.  This contradicts the claimed order
(delete only after the update, never a dangling pointer). -/
theorem set_header_image_deletes_before_update :
    set_header_image_click (some "h1") "p1" (some "h0") =
      [HeaderEvent.uploadBlob "h1", HeaderEvent.deleteBlob "h0",
       HeaderEvent.setHeader "p1" "h1"] ∧
    (runHeaderEvents { drive := ["h0"], header := some "h0" }
        ((set_header_image_click (some "h1") "p1" (some "h0")).take 2)).header =
      some "h0" ∧
    "h0" ∉ (runHeaderEvents { drive := ["h0"], header := some "h0" }
        ((set_header_image_click (some "h1") "p1" (some "h0")).take 2)).drive := by
  refine ⟨rfl, rfl, ?_⟩
  decide

/-- C5: for an existing photo, the Delete button deletes the Drive blob
first; when that fails the Photo record is retained and a blob-store error is
surfaced, and when it succeeds the record is deleted and no photo with that
id appears in any subsequent project photo listing. -/
theorem delete_photo_click_spec (photo_id : Nat) (s : Store) (ph : Photo)
    (hmem : ph ∈ s.photos) (hid : ph.id = photo_id) :
    (delete_photo_click false photo_id s = (s, some DBError.blobStoreError) ∧
      ph ∈ (delete_photo_click false photo_id s).1.photos) ∧
    ((delete_photo_click true photo_id s).2 = none ∧
      (∀ project_id, ph ∉ get_project_photos project_id (delete_photo_click true photo_id s).1) ∧
      (∀ project_id q, q ∈ get_project_photos project_id (delete_photo_click true photo_id s).1 →
        q.id ≠ photo_id)) := by
  have habsent : ∀ project_id q,
      q ∈ get_project_photos project_id (delete_photo_click true photo_id s).1 →
      q.id ≠ photo_id := by
    intro pid q hq
    have h1 := (mem_sortDescBy _ q _).mp hq
    have h2 := (List.mem_filter.mp h1).1
    have h3 := (List.mem_filter.mp h2).2
    simpa [bne_iff_ne] using h3
  refine ⟨⟨rfl, hmem⟩, rfl, ?_, habsent⟩
  intro pid hph
  exact habsent pid ph hph hid

/-- Witness for C5: the single-photo store, with the Drive delete failing and
succeeding. -/
theorem delete_photo_click_spec_witness :
    delete_photo_click false 1 storeOnePhoto = (storeOnePhoto, some DBError.blobStoreError) ∧
    photoK0 ∈ (delete_photo_click false 1 storeOnePhoto).1.photos ∧
    (delete_photo_click true 1 storeOnePhoto).2 = none ∧
    photoK0 ∉ get_project_photos "p1" (delete_photo_click true 1 storeOnePhoto).1 :=
  ⟨(delete_photo_click_spec 1 storeOnePhoto photoK0 (by decide) rfl).1.1,
   (delete_photo_click_spec 1 storeOnePhoto photoK0 (by decide) rfl).1.2,
   (delete_photo_click_spec 1 storeOnePhoto photoK0 (by decide) rfl).2.1,
   (delete_photo_click_spec 1 storeOnePhoto photoK0 (by decide) rfl).2.2.1 "p1"⟩

/-- Counterexample for C6: creating a fresh project stores
`action_required = "Initial planting and monitoring"`, which is neither
'TBD', 'None' nor empty — so not every non-named status field gets one of
those defaults. -/
theorem create_project_action_required_not_tbd :
    (get_project_by_id "p1" (create_project "2025-10-12" "p1" "Plant A" emptyStore).1).map
      (fun p => p.action_required) = some "Initial planting and monitoring" ∧
    "Initial planting and monitoring" ≠ "TBD" ∧
    "Initial planting and monitoring" ≠ "None" ∧
    "Initial planting and monitoring" ≠ "" := by
  refine ⟨by decide, by decide, by decide, by decide⟩

/-- C6 (amended): for every fresh non-empty id and non-empty name,
createProject succeeds and a subsequent getProject returns exactly the
documented defaults, except that `action_required` is the fixed text
'Initial planting and monitoring' rather than 'TBD'/'None'/empty
(overall_status='Healthy', priority='Medium',
retail_ready='Not yet available', pest/disease presence 'None', pest/disease
type empty, header image null, the remaining status fields 'TBD',
last_updated = the current date). -/
theorem create_project_fresh_defaults (today project_id project_name : String) (s : Store)
    (hfresh : get_project_by_id project_id s = none)
    (hid : project_id ≠ "") (hname : project_name ≠ "") :
    create_project today project_id project_name s =
      ({ s with projects := s.projects ++ [new_project_data project_id project_name today] },
        none) ∧
    get_project_by_id project_id (create_project today project_id project_name s).1 =
      some (new_project_data project_id project_name today) := by
  have h1 : create_project today project_id project_name s =
      ({ s with projects := s.projects ++ [new_project_data project_id project_name today] },
        none) := by
    simp [create_project, hname, hid, hfresh, add_project]
  refine ⟨h1, ?_⟩
  rw [h1]
  show (s.projects ++ [new_project_data project_id project_name today]).find?
      (fun p => p.id == project_id) = some (new_project_data project_id project_name today)
  rw [find?_append_of_none _ _ _ hfresh]
  simp [List.find?_cons, new_project_data]

/-- Witness for C6 (amended): creating `p1` in the empty store. -/
theorem create_project_fresh_defaults_witness :
    create_project "2025-10-12" "p1" "Plant A" emptyStore =
      ({ emptyStore with
          projects := emptyStore.projects ++ [new_project_data "p1" "Plant A" "2025-10-12"] },
        none) ∧
    get_project_by_id "p1" (create_project "2025-10-12" "p1" "Plant A" emptyStore).1 =
      some (new_project_data "p1" "Plant A" "2025-10-12") :=
  create_project_fresh_defaults "2025-10-12" "p1" "Plant A" emptyStore (by decide)
    (by decide) (by decide)

/-- C7: creating a project under an id that already exists (with well-formed,
non-empty form inputs) always fails with the duplicate-identity error and
returns the store unchanged: no row is inserted and the existing record keeps
its fields. -/
theorem create_project_duplicate_id (today project_id project_name : String) (s : Store)
    (p : Project) (hex : get_project_by_id project_id s = some p)
    (hid : project_id ≠ "") (hname : project_name ≠ "") :
    create_project today project_id project_name s = (s, some DBError.duplicateIdentity) ∧
    get_project_by_id project_id (create_project today project_id project_name s).1 = some p := by
  have h1 : create_project today project_id project_name s =
      (s, some DBError.duplicateIdentity) := by
    simp [create_project, hname, hid, hex]
  exact ⟨h1, by rw [h1]; exact hex⟩

/-- Witness for C7: re-creating `p1` over the store that already holds it. -/
theorem create_project_duplicate_id_witness :
    create_project "2025-10-12" "p1" "Plant B" storeWithP1 =
      (storeWithP1, some DBError.duplicateIdentity) ∧
    get_project_by_id "p1" (create_project "2025-10-12" "p1" "Plant B" storeWithP1).1 =
      some (new_project_data "p1" "Plant A" "2025-01-01") :=
  create_project_duplicate_id "2025-10-12" "p1" "Plant B" storeWithP1
    (new_project_data "p1" "Plant A" "2025-01-01") (by decide) (by decide) (by decide)

/-- Counterexample for C8: uploading a photo to a project that already has a
photo with the same `date_added` (dates are stored at day granularity) does
NOT put the new photo first: `ORDER BY date_added DESC` leaves same-date rows
in rowid order, so the pre-existing photo `k0` stays ahead of the new `k1`. -/
theorem upload_photo_same_date_not_first :
    (get_project_photos "p1"
        (upload_photo_click (some "k1") "2025-10-12" "p1" "cap" "u" storeOnePhoto).1).map
      (fun ph => ph.google_drive_id) = ["k0", "k1"] := by
  decide

/-- C8 (amended): after a successful photo upload, the listing for the
project contains the new photo with exactly the blob key the upload returned
(resolvable via `get_photo_url_from_drive`), the listing is ordered by
`date_added` descending, and the new photo is in first position whenever its
date is strictly later than every existing photo of that project — a
same-date pre-existing photo may precede it. -/
theorem upload_photo_click_spec (today project_id caption user_name google_drive_id : String)
    (s : Store) :
    (upload_photo_click (some google_drive_id) today project_id caption user_name s).2 = none ∧
    (upload_photo_click (some google_drive_id) today project_id caption user_name s).1.photos =
      s.photos ++ [uploaded_photo today project_id google_drive_id caption user_name s] ∧
    uploaded_photo today project_id google_drive_id caption user_name s ∈
      get_project_photos project_id
        (upload_photo_click (some google_drive_id) today project_id caption user_name s).1 ∧
    ((uploaded_photo today project_id google_drive_id caption user_name s).google_drive_id =
        google_drive_id ∧
      get_photo_url_from_drive
          (uploaded_photo today project_id google_drive_id caption user_name s).google_drive_id =
        "https://drive.google.com/thumbnail?id=" ++ google_drive_id ++ "&sz=w1000") ∧
    List.Pairwise (fun a b => strLe b.date_added a.date_added = true)
      (get_project_photos project_id
        (upload_photo_click (some google_drive_id) today project_id caption user_name s).1) ∧
    ((∀ q ∈ s.photos, q.project_id = project_id → strLt q.date_added today = true) →
      (get_project_photos project_id
          (upload_photo_click (some google_drive_id) today project_id caption user_name s).1).head? =
        some (uploaded_photo today project_id google_drive_id caption user_name s)) := by
  have hphotos :
      (upload_photo_click (some google_drive_id) today project_id caption user_name s).1.photos =
        s.photos ++ [uploaded_photo today project_id google_drive_id caption user_name s] := rfl
  have hfilter :
      (s.photos ++ [uploaded_photo today project_id google_drive_id caption user_name s]).filter
          (fun ph => ph.project_id == project_id) =
        s.photos.filter (fun ph => ph.project_id == project_id) ++
          [uploaded_photo today project_id google_drive_id caption user_name s] := by
    rw [List.filter_append]
    simp [uploaded_photo]
  have hlist : get_project_photos project_id
      (upload_photo_click (some google_drive_id) today project_id caption user_name s).1 =
      sortDescBy (fun ph => ph.date_added)
        (s.photos.filter (fun ph => ph.project_id == project_id) ++
          [uploaded_photo today project_id google_drive_id caption user_name s]) := by
    unfold get_project_photos
    rw [hphotos, hfilter]
  refine ⟨rfl, hphotos, ?_, ⟨rfl, rfl⟩, ?_, ?_⟩
  · rw [hlist]
    exact (mem_sortDescBy _ _ _).mpr (List.mem_append_right _ (List.mem_singleton.mpr rfl))
  · rw [hlist]
    exact pairwise_sortDescBy _ _
  · intro hall
    rw [hlist]
    apply head_sortDescBy_append
    intro y hy
    have h1 := List.mem_filter.mp hy
    have h2 : y.project_id = project_id := by simpa using h1.2
    exact hall y h1.1 h2

/-- Witness for C8 (amended): uploading to the empty store puts the new photo
first. -/
theorem upload_photo_click_spec_witness :
    (upload_photo_click (some "k1") "2025-10-12" "p1" "" "u" emptyStore).2 = none ∧
    (get_project_photos "p1"
        (upload_photo_click (some "k1") "2025-10-12" "p1" "" "u" emptyStore).1).head? =
      some (uploaded_photo "2025-10-12" "p1" "k1" "" "u" emptyStore) :=
  ⟨(upload_photo_click_spec "2025-10-12" "p1" "" "u" "k1" emptyStore).1,
   (upload_photo_click_spec "2025-10-12" "p1" "" "u" "k1" emptyStore).2.2.2.2.2 (by decide)⟩

/-- C9: posting a comment with an empty author or empty text fails with a
validation error and inserts no row (the store is unchanged); with non-empty
author and text the comment is inserted and the project's comment listing
contains it, ordered most-recent-first by `date_added`. -/
theorem post_comment_click_spec (now project_id user_name comment_text : String) (s : Store) :
    ((user_name = "" ∨ comment_text = "") →
      post_comment_click now project_id user_name comment_text s =
        (s, some DBError.validationError)) ∧
    (user_name ≠ "" → comment_text ≠ "" →
      (post_comment_click now project_id user_name comment_text s).2 = none ∧
      (post_comment_click now project_id user_name comment_text s).1.comments =
        s.comments ++ [posted_comment now project_id user_name comment_text s] ∧
      posted_comment now project_id user_name comment_text s ∈
        get_project_comments project_id
          (post_comment_click now project_id user_name comment_text s).1 ∧
      List.Pairwise (fun a b => strLe b.date_added a.date_added = true)
        (get_project_comments project_id
          (post_comment_click now project_id user_name comment_text s).1)) := by
  constructor
  · intro h
    rcases h with h | h
    · simp [post_comment_click, h]
    · simp [post_comment_click, h]
  · intro hu ht
    have hclick : post_comment_click now project_id user_name comment_text s =
        (add_comment now project_id user_name comment_text s, none) := by
      simp [post_comment_click, hu, ht]
    have hcomments :
        (post_comment_click now project_id user_name comment_text s).1.comments =
          s.comments ++ [posted_comment now project_id user_name comment_text s] := by
      rw [hclick]
      rfl
    have hfilter :
        (s.comments ++ [posted_comment now project_id user_name comment_text s]).filter
            (fun cm => cm.project_id == project_id) =
          s.comments.filter (fun cm => cm.project_id == project_id) ++
            [posted_comment now project_id user_name comment_text s] := by
      rw [List.filter_append]
      simp [posted_comment]
    have hlist : get_project_comments project_id
        (post_comment_click now project_id user_name comment_text s).1 =
        sortDescBy (fun cm => cm.date_added)
          (s.comments.filter (fun cm => cm.project_id == project_id) ++
            [posted_comment now project_id user_name comment_text s]) := by
      unfold get_project_comments
      rw [hcomments, hfilter]
    refine ⟨by rw [hclick], hcomments, ?_, ?_⟩
    · rw [hlist]
      exact (mem_sortDescBy _ _ _).mpr (List.mem_append_right _ (List.mem_singleton.mpr rfl))
    · rw [hlist]
      exact pairwise_sortDescBy _ _

/-- Witness for C9: an empty comment text fails, a non-empty one posts. -/
theorem post_comment_click_spec_witness :
    post_comment_click "2025-10-12 10:00" "p1" "u" "" emptyStore =
      (emptyStore, some DBError.validationError) ∧
    (post_comment_click "2025-10-12 10:00" "p1" "u" "hello" emptyStore).2 = none :=
  ⟨(post_comment_click_spec "2025-10-12 10:00" "p1" "u" "" emptyStore).1 (Or.inr rfl),
   ((post_comment_click_spec "2025-10-12 10:00" "p1" "u" "hello" emptyStore).2
      (by decide) (by decide)).1⟩

/-- C10: at startup, seeding inserts exactly the two fixed sample projects
and the three fixed sample comments if and only if the projects table is
empty; with at least one project present the store is returned unchanged. -/
theorem seed_sample_data_spec (now : String) (s : Store) :
    (s.projects = [] →
      seed_sample_data now s =
        { s with
          projects := [sample_project_1, sample_project_2],
          comments := s.comments ++
            [{ id := s.commentNextId, project_id := "hydrangea-little-lime-2025",
               user_name := "Sarah M.",
               comment_text := "Plants looking great! Color is coming in nicely.",
               date_added := now },
             { id := s.commentNextId + 1, project_id := "hydrangea-little-lime-2025",
               user_name := "Mike T.",
               comment_text := "Adjusted watering schedule. Monitoring closely.",
               date_added := now },
             { id := s.commentNextId + 2, project_id := "knockout-roses-spring-2025",
               user_name := "Mike T.",
               comment_text :=
                 "Spotted some aphids on lower leaves. Planning treatment for tomorrow.",
               date_added := now }],
          commentNextId := s.commentNextId + 3 }) ∧
    (s.projects ≠ [] → seed_sample_data now s = s) := by
  constructor
  · intro h
    have hlen : (get_all_projects s).length = 0 := by
      simp [get_all_projects, length_sortDescBy, h]
    obtain ⟨prj, phs, pni, cms, cni⟩ := s
    simp only at h
    subst h
    simp only [seed_sample_data]
    rw [if_pos hlen]
    simp [add_comment, add_project]
  · intro h
    have hlen : ¬ (get_all_projects s).length = 0 := by
      rw [get_all_projects, length_sortDescBy]
      simpa [List.length_eq_zero] using h
    simp [seed_sample_data, hlen]

/-- Witness for C10: seeding the empty store inserts the samples; seeding a
store that already holds a project changes nothing. -/
theorem seed_sample_data_spec_witness :
    seed_sample_data "2025-10-07 09:00" emptyStore =
      { emptyStore with
        projects := [sample_project_1, sample_project_2],
        comments := emptyStore.comments ++
          [{ id := emptyStore.commentNextId, project_id := "hydrangea-little-lime-2025",
             user_name := "Sarah M.",
             comment_text := "Plants looking great! Color is coming in nicely.",
             date_added := "2025-10-07 09:00" },
           { id := emptyStore.commentNextId + 1, project_id := "hydrangea-little-lime-2025",
             user_name := "Mike T.",
             comment_text := "Adjusted watering schedule. Monitoring closely.",
             date_added := "2025-10-07 09:00" },
           { id := emptyStore.commentNextId + 2, project_id := "knockout-roses-spring-2025",
             user_name := "Mike T.",
             comment_text :=
               "Spotted some aphids on lower leaves. Planning treatment for tomorrow.",
             date_added := "2025-10-07 09:00" }],
        commentNextId := emptyStore.commentNextId + 3 } ∧
    seed_sample_data "2025-10-07 09:00" storeWithP1 = storeWithP1 :=
  ⟨(seed_sample_data_spec "2025-10-07 09:00" emptyStore).1 rfl,
   (seed_sample_data_spec "2025-10-07 09:00" storeWithP1).2 (by decide)⟩
